import Mathlib

/-
Shallow embedding of the customer-survey lifecycle implemented in this
repository, in its two variants:

  * namespace V1 models CustomerSurveyProgram.py
    (classes Survey, LeadManager, CenterOfExcellence, Customer);
  * namespace V2 models customer_survey_program.py
    (classes Survey and SurveyManager).

Modelling conventions, uniform across both variants:

  * Python dicts (ordered, last-write-wins per key) are association lists
    over String keys, with dictGet and dictInsert below;
  * uuid generation is nondeterministic, so the fresh survey id is taken
    as an explicit parameter of the creation operations; no claim depends
    on id values;
  * wall-clock timestamps attached to audit records are elided: an audit
    entry is modelled by its log text (V1) or by its role and action
    fields (V2); all claims about the audit trail concern its length and
    its appended entries, never the clock;
  * a Python function that catches its exception, prints a message and
    returns False or None is modelled as returning the value together
    with the resulting state and the list of printed lines; a V1 function
    whose exception propagates (wrapped in RuntimeError) returns the
    object state reached when the exception fires together with an
    Option String carrying the message (none on success);
  * datetime.date values are modelled as Int; no operation in the source
    inspects them.
-/

/-- Python dict lookup: first binding of the key, if any. -/
def dictGet {α : Type} : List (String × α) → String → Option α
  | [], _ => none
  | (k, v) :: rest, key => if k = key then some v else dictGet rest key

/-- Python dict assignment d[key] = val: replace in place, else append. -/
def dictInsert {α : Type} : List (String × α) → String → α → List (String × α)
  | [], key, val => [(key, val)]
  | (k, v) :: rest, key, val =>
    if k = key then (key, val) :: rest else (k, v) :: dictInsert rest key val

/-- Model of Python str.lower, adequate for the ASCII literals used here. -/
def pyLower (s : String) : String := ⟨s.data.map Char.toLower⟩

theorem dictGet_insert_self {α : Type} (l : List (String × α)) (k : String) (v : α) :
    dictGet (dictInsert l k v) k = some v := by
  induction l with
  | nil => simp [dictInsert, dictGet]
  | cons p rest ih =>
    obtain ⟨a, b⟩ := p
    by_cases h : a = k
    · simp [dictInsert, dictGet, h]
    · simp [dictInsert, dictGet, h, ih]

theorem dictInsert_insert_self {α : Type} (l : List (String × α)) (k : String) (v w : α) :
    dictInsert (dictInsert l k v) k w = dictInsert l k w := by
  induction l with
  | nil => simp [dictInsert]
  | cons p rest ih =>
    obtain ⟨a, b⟩ := p
    by_cases h : a = k
    · simp [dictInsert, h]
    · simp [dictInsert, h, ih]

namespace V1

def SURVEY_STATUS_DRAFT : String := "Draft"
def SURVEY_STATUS_REVIEW : String := "Under Review"
def SURVEY_STATUS_APPROVED : String := "Approved"
def SURVEY_STATUS_REJECTED : String := "Rejected"
def SURVEY_STATUS_PUBLISHED : String := "Published"
def SURVEY_STATUS_COMPLETED : String := "Completed"

/-- Survey object of CustomerSurveyProgram.py. -/
structure Survey where
  survey_id : String
  title : String
  questions : List String
  customer_id : String
  start_date : Int
  end_date : Int
  status : String
  responses : List (String × String)
  audit_trail : List String
deriving DecidableEq

/-- Survey.add_audit_log: append one entry (timestamp elided). -/
def Survey.add_audit_log (s : Survey) (log : String) : Survey :=
  { s with audit_trail := s.audit_trail ++ [log] }

/-- Survey.__init__: fresh survey in Draft with empty responses and trail. -/
def mkSurvey (sid title : String) (questions : List String) (customer_id : String)
    (start_date end_date : Int) : Survey :=
  { survey_id := sid, title := title, questions := questions,
    customer_id := customer_id, start_date := start_date, end_date := end_date,
    status := SURVEY_STATUS_DRAFT, responses := [], audit_trail := [] }

/-- LeadManager.create_survey: construct and log; no input validation. -/
def create_survey (sid title : String) (questions : List String) (customer_id : String)
    (start_date end_date : Int) : Survey :=
  (mkSurvey sid title questions customer_id start_date end_date).add_audit_log
    "Survey created by Lead Manager."

/-- LeadManager.submit_for_review: sets status with no guard on the prior status. -/
def submit_for_review (s : Survey) : Survey :=
  ({ s with status := SURVEY_STATUS_REVIEW }).add_audit_log
    "Survey submitted for CoE review."

/-- CenterOfExcellence.review_survey: decision compared to the status constants. -/
def review_survey (s : Survey) (decision : String) : Survey × Option String :=
  if decision = SURVEY_STATUS_APPROVED then
    (({ s with status := SURVEY_STATUS_APPROVED }).add_audit_log
      "Survey approved by CoE.", none)
  else if decision = SURVEY_STATUS_REJECTED then
    (({ s with status := SURVEY_STATUS_REJECTED }).add_audit_log
      "Survey rejected by CoE.", none)
  else
    (s, some "Error reviewing survey: Invalid decision provided.")

/-- CenterOfExcellence.notify_customer: simulated notification, logs one entry. -/
def notify_customer (s : Survey) : Survey :=
  s.add_audit_log ("Notification sent to customer " ++ s.customer_id ++ ".")

/-- CenterOfExcellence.publish_survey: guarded on Approved; on success logs the
publish entry and then calls notify_customer, which logs a second entry. -/
def publish_survey (s : Survey) : Survey × Option String :=
  if s.status ≠ SURVEY_STATUS_APPROVED then
    (s, some "Error publishing survey: Survey must be approved before publishing.")
  else
    (notify_customer (({ s with status := SURVEY_STATUS_PUBLISHED }).add_audit_log
      "Survey published by CoE."), none)

/-- Loop body of Customer.fill_survey: answers are written one by one into
responses until an unknown question raises, leaving earlier writes in place. -/
def fillLoop (s : Survey) : List (String × String) → Survey × Option String
  | [] => (s, none)
  | (q, a) :: rest =>
    if q ∈ s.questions then
      fillLoop { s with responses := dictInsert s.responses q a } rest
    else
      (s, some ("Error filling survey: Invalid question: " ++ q))

/-- Customer.fill_survey: iterate the answers; log only when the loop finishes
without raising. The status is never touched. -/
def fill_survey (s : Survey) (responses : List (String × String)) :
    Survey × Option String :=
  match fillLoop s responses with
  | (t, none) => (t.add_audit_log "Customer filled in survey responses.", none)
  | (t, some e) => (t, some e)

/-- Customer.submit_survey: sets status to Completed with no guard. -/
def submit_survey (s : Survey) : Survey :=
  ({ s with status := SURVEY_STATUS_COMPLETED }).add_audit_log
    "Customer submitted completed survey."

end V1

namespace V2

def STATUS_PENDING_REVIEW : String := "Pending Review"
def STATUS_APPROVED : String := "Approved"
def STATUS_REJECTED : String := "Rejected"
def STATUS_PUBLISHED : String := "Published"
def STATUS_IN_PROGRESS : String := "In Progress"
def STATUS_COMPLETED : String := "Completed"

def ROLE_LEAD_MANAGER : String := "Lead Manager"
def ROLE_COE : String := "Center of Excellence"
def ROLE_CUSTOMER : String := "Customer"

/-- Audit record of customer_survey_program.py (timestamp elided). -/
structure AuditRecord where
  role : String
  action : String
deriving DecidableEq

/-- Survey object of customer_survey_program.py. Its responses dict is keyed
by customer id and holds the whole answers dict of that customer. -/
structure Survey where
  survey_id : String
  title : String
  questions : List String
  start_date : Int
  end_date : Int
  customer_id : String
  status : String
  responses : List (String × List (String × String))
  audit_trail : List AuditRecord
deriving DecidableEq

/-- State of a SurveyManager: its surveys dict. -/
structure Manager where
  surveys : List (String × Survey)
deriving DecidableEq

/-- SurveyManager._log_action: append one audit record to the survey when it
exists; on a missing survey the AttributeError is caught and printed. -/
def log_action (m : Manager) (sid role action : String) : Manager × List String :=
  match dictGet m.surveys sid with
  | some s =>
    (⟨dictInsert m.surveys sid
      { s with audit_trail := s.audit_trail ++ [⟨role, action⟩] }⟩, [])
  | none => (m, ["Error logging action: survey lookup failed"])

/-- SurveyManager.create_survey: store a fresh survey (status starts at
Pending Review, per Survey.__init__) and log; returns the new id. There is
no validation of questions or dates. -/
def create_survey (m : Manager) (sid title : String) (questions : List String)
    (start_date end_date : Int) (customer_id : String) :
    Option String × Manager × List String :=
  let s : Survey :=
    { survey_id := sid, title := title, questions := questions,
      start_date := start_date, end_date := end_date, customer_id := customer_id,
      status := STATUS_PENDING_REVIEW, responses := [], audit_trail := [] }
  let m1 : Manager := ⟨dictInsert m.surveys sid s⟩
  let r := log_action m1 sid ROLE_LEAD_MANAGER "Survey Created"
  (some sid, r.1, r.2)

/-- SurveyManager.review_survey: CoE only; decision lowercased and matched
against approve, reject, request_changes. Failures are caught, printed and
reported as False with the manager state unchanged. -/
def review_survey (m : Manager) (sid role decision : String) :
    Bool × Manager × List String :=
  match dictGet m.surveys sid with
  | none => (false, m, ["Error reviewing survey: Survey not found."])
  | some s =>
    if role ≠ ROLE_COE then
      (false, m, ["Error reviewing survey: Unauthorized role for review."])
    else if pyLower decision = "approve" then
      let m1 : Manager := ⟨dictInsert m.surveys sid { s with status := STATUS_APPROVED }⟩
      let r := log_action m1 sid role ("Review decision: " ++ decision)
      (true, r.1, r.2)
    else if pyLower decision = "reject" then
      let m1 : Manager := ⟨dictInsert m.surveys sid { s with status := STATUS_REJECTED }⟩
      let r := log_action m1 sid role ("Review decision: " ++ decision)
      (true, r.1, r.2)
    else if pyLower decision = "request_changes" then
      let m1 : Manager :=
        ⟨dictInsert m.surveys sid { s with status := STATUS_PENDING_REVIEW }⟩
      let r := log_action m1 sid role ("Review decision: " ++ decision)
      (true, r.1, r.2)
    else
      (false, m, ["Error reviewing survey: Invalid decision."])

/-- SurveyManager.publish_survey: guarded on Approved; prints the simulated
notification email and logs one record. -/
def publish_survey (m : Manager) (sid : String) : Bool × Manager × List String :=
  match dictGet m.surveys sid with
  | none => (false, m, ["Error publishing survey: Survey not found."])
  | some s =>
    if s.status ≠ STATUS_APPROVED then
      (false, m, ["Error publishing survey: Survey is not approved for publish."])
    else
      let m1 : Manager := ⟨dictInsert m.surveys sid { s with status := STATUS_PUBLISHED }⟩
      let r := log_action m1 sid ROLE_COE "Survey Published"
      (true, r.1,
        ("Sending Email: Survey " ++ s.survey_id ++ " has been published.") :: r.2)

/-- SurveyManager.submit_response: owner check only; stores the whole answers
dict under the customer id (no per-question validation or merge) and sets the
status to Completed or In Progress. -/
def submit_response (m : Manager) (sid customer_id : String)
    (responses : List (String × String)) (is_final : Bool) :
    Bool × Manager × List String :=
  match dictGet m.surveys sid with
  | none => (false, m, ["Error submitting response: Survey not found."])
  | some s =>
    if s.customer_id ≠ customer_id then
      (false, m, ["Error submitting response: Unauthorized customer."])
    else
      let s1 : Survey :=
        { s with responses := dictInsert s.responses customer_id responses,
                 status := if is_final then STATUS_COMPLETED else STATUS_IN_PROGRESS }
      let m1 : Manager := ⟨dictInsert m.surveys sid s1⟩
      let r := log_action m1 sid ROLE_CUSTOMER
        (if is_final then "Final Response Submitted" else "Response Saved")
      (true, r.1, r.2)

/-- Shape of the dict returned by SurveyManager.export_survey_data. -/
structure ExportData where
  survey_id : String
  title : String
  status : String
  responses : List (String × List (String × String))
  audit_trail : List AuditRecord
deriving DecidableEq

/-- SurveyManager.export_survey_data: read-only projection of the survey. -/
def export_survey_data (m : Manager) (sid : String) :
    Option ExportData × Manager × List String :=
  match dictGet m.surveys sid with
  | none => (none, m, ["Error exporting survey data: Survey not found."])
  | some s =>
    (some ⟨s.survey_id, s.title, s.status, s.responses, s.audit_trail⟩, m, [])

end V2

/-- Concrete V1 survey fixture, as created by the lead manager. -/
def exDraft : V1.Survey := V1.create_survey "id1" "T" ["Q1", "Q2"] "C1" 0 7

/-- The fixture with status forced to Approved. -/
def exApproved : V1.Survey := { exDraft with status := V1.SURVEY_STATUS_APPROVED }

/-- The fixture with status forced to Published. -/
def exPublished : V1.Survey := { exDraft with status := V1.SURVEY_STATUS_PUBLISHED }

/-- Concrete V2 survey fixture in Published status, owned by customer C1. -/
def exSurvey2 : V2.Survey :=
  { survey_id := "s1", title := "T", questions := ["Q1", "Q2"],
    start_date := 0, end_date := 7, customer_id := "C1",
    status := V2.STATUS_PUBLISHED, responses := [], audit_trail := [] }

/-- Empty V2 manager. -/
def m0 : V2.Manager := ⟨[]⟩

/-- V2 manager holding the published fixture under id s1. -/
def mPub : V2.Manager := ⟨[("s1", exSurvey2)]⟩

/-- Keys-and-answers prefix of a submission that precedes the first unknown
question, in submission order. -/
def takeValid (qs : List String) : List (String × String) → List (String × String)
  | [] => []
  | (q, a) :: rest => if q ∈ qs then (q, a) :: takeValid qs rest else []

/-- Fold a list of answers into a dict, one assignment at a time. -/
def mergeList (d : List (String × String)) : List (String × String) → List (String × String)
  | [] => d
  | (q, a) :: rest => mergeList (dictInsert d q a) rest

theorem fillLoop_questions (rs : List (String × String)) :
    ∀ s : V1.Survey, (V1.fillLoop s rs).1.questions = s.questions := by
  induction rs with
  | nil => intro s; simp [V1.fillLoop]
  | cons p rest ih =>
    intro s
    obtain ⟨q, a⟩ := p
    by_cases h : q ∈ s.questions
    · simp [V1.fillLoop, h, ih]
    · simp [V1.fillLoop, h]

theorem fillLoop_status (rs : List (String × String)) :
    ∀ s : V1.Survey, (V1.fillLoop s rs).1.status = s.status := by
  induction rs with
  | nil => intro s; simp [V1.fillLoop]
  | cons p rest ih =>
    intro s
    obtain ⟨q, a⟩ := p
    by_cases h : q ∈ s.questions
    · simp [V1.fillLoop, h, ih]
    · simp [V1.fillLoop, h]

theorem fillLoop_audit (rs : List (String × String)) :
    ∀ s : V1.Survey, (V1.fillLoop s rs).1.audit_trail = s.audit_trail := by
  induction rs with
  | nil => intro s; simp [V1.fillLoop]
  | cons p rest ih =>
    intro s
    obtain ⟨q, a⟩ := p
    by_cases h : q ∈ s.questions
    · simp [V1.fillLoop, h, ih]
    · simp [V1.fillLoop, h]

theorem fillLoop_responses (rs : List (String × String)) :
    ∀ s : V1.Survey,
      (V1.fillLoop s rs).1.responses = mergeList s.responses (takeValid s.questions rs) := by
  induction rs with
  | nil => intro s; simp [V1.fillLoop, takeValid, mergeList]
  | cons p rest ih =>
    intro s
    obtain ⟨q, a⟩ := p
    by_cases h : q ∈ s.questions
    · simp [V1.fillLoop, takeValid, mergeList, h, ih]
    · simp [V1.fillLoop, takeValid, mergeList, h]

theorem fillLoop_err_iff (rs : List (String × String)) :
    ∀ s : V1.Survey, (V1.fillLoop s rs).2.isSome ↔ ∃ p ∈ rs, p.1 ∉ s.questions := by
  induction rs with
  | nil => intro s; simp [V1.fillLoop]
  | cons p rest ih =>
    intro s
    obtain ⟨q, a⟩ := p
    by_cases h : q ∈ s.questions
    · simp [V1.fillLoop, h, ih]
    · simp [V1.fillLoop, h]

theorem fill_survey_err_iff (s : V1.Survey) (rs : List (String × String)) :
    (V1.fill_survey s rs).2.isSome ↔ ∃ p ∈ rs, p.1 ∉ s.questions := by
  rw [← fillLoop_err_iff rs s]
  rcases hfl : V1.fillLoop s rs with ⟨t, e⟩
  cases e <;> simp [V1.fill_survey, hfl]

theorem fill_survey_status (s : V1.Survey) (rs : List (String × String)) :
    (V1.fill_survey s rs).1.status = s.status := by
  have h := fillLoop_status rs s
  rcases hfl : V1.fillLoop s rs with ⟨t, e⟩
  rw [hfl] at h
  cases e <;> simp [V1.fill_survey, hfl, V1.Survey.add_audit_log] <;> exact h

theorem fill_survey_responses (s : V1.Survey) (rs : List (String × String)) :
    (V1.fill_survey s rs).1.responses = mergeList s.responses (takeValid s.questions rs) := by
  have h := fillLoop_responses rs s
  rcases hfl : V1.fillLoop s rs with ⟨t, e⟩
  rw [hfl] at h
  cases e <;> simp [V1.fill_survey, hfl, V1.Survey.add_audit_log] <;> exact h

theorem fill_survey_audit_err (s : V1.Survey) (rs : List (String × String))
    (herr : (V1.fill_survey s rs).2.isSome) :
    (V1.fill_survey s rs).1.audit_trail = s.audit_trail := by
  have h := fillLoop_audit rs s
  rcases hfl : V1.fillLoop s rs with ⟨t, e⟩
  rw [hfl] at h
  cases e with
  | none => rw [V1.fill_survey, hfl] at herr; simp at herr
  | some e => simp [V1.fill_survey, hfl]; exact h

theorem fill_survey_audit_ok (s : V1.Survey) (rs : List (String × String))
    (hok : (V1.fill_survey s rs).2 = none) :
    (V1.fill_survey s rs).1.audit_trail =
      s.audit_trail ++ ["Customer filled in survey responses."] := by
  have h := fillLoop_audit rs s
  rcases hfl : V1.fillLoop s rs with ⟨t, e⟩
  rw [hfl] at h
  simp at h
  cases e with
  | none => simp [V1.fill_survey, hfl, V1.Survey.add_audit_log, h]
  | some e => rw [V1.fill_survey, hfl] at hok; simp at hok

theorem log_action_found (m : V2.Manager) (sid role action : String) (s : V2.Survey)
    (h : dictGet m.surveys sid = some s) :
    V2.log_action m sid role action =
      (⟨dictInsert m.surveys sid
        { s with audit_trail := s.audit_trail ++ [⟨role, action⟩] }⟩, []) := by
  simp [V2.log_action, h]

theorem create_survey_eq (m : V2.Manager) (sid title : String) (qs : List String)
    (sd ed : Int) (cid : String) :
    V2.create_survey m sid title qs sd ed cid =
      (some sid,
       ⟨dictInsert m.surveys sid
         { survey_id := sid, title := title, questions := qs,
           start_date := sd, end_date := ed, customer_id := cid,
           status := V2.STATUS_PENDING_REVIEW, responses := [],
           audit_trail := [⟨V2.ROLE_LEAD_MANAGER, "Survey Created"⟩] }⟩, []) := by
  have h : dictGet
      (dictInsert m.surveys sid
        { survey_id := sid, title := title, questions := qs,
          start_date := sd, end_date := ed, customer_id := cid,
          status := V2.STATUS_PENDING_REVIEW, responses := [],
          audit_trail := [] }) sid =
      some { survey_id := sid, title := title, questions := qs,
             start_date := sd, end_date := ed, customer_id := cid,
             status := V2.STATUS_PENDING_REVIEW, responses := [],
             audit_trail := [] } := dictGet_insert_self _ _ _
  simp [V2.create_survey, V2.log_action, h, dictInsert_insert_self]

theorem review_survey_found_coe (m : V2.Manager) (sid dec : String) (s : V2.Survey)
    (h : dictGet m.surveys sid = some s) :
    V2.review_survey m sid V2.ROLE_COE dec =
      if pyLower dec = "approve" then
        (true,
         ⟨dictInsert m.surveys sid
           { s with status := V2.STATUS_APPROVED,
                    audit_trail := s.audit_trail ++
                      [⟨V2.ROLE_COE, "Review decision: " ++ dec⟩] }⟩, [])
      else if pyLower dec = "reject" then
        (true,
         ⟨dictInsert m.surveys sid
           { s with status := V2.STATUS_REJECTED,
                    audit_trail := s.audit_trail ++
                      [⟨V2.ROLE_COE, "Review decision: " ++ dec⟩] }⟩, [])
      else if pyLower dec = "request_changes" then
        (true,
         ⟨dictInsert m.surveys sid
           { s with status := V2.STATUS_PENDING_REVIEW,
                    audit_trail := s.audit_trail ++
                      [⟨V2.ROLE_COE, "Review decision: " ++ dec⟩] }⟩, [])
      else
        (false, m, ["Error reviewing survey: Invalid decision."]) := by
  simp only [V2.review_survey, h]
  rw [if_neg (by simp : ¬ (V2.ROLE_COE ≠ V2.ROLE_COE))]
  split_ifs with h1 h2 h3 <;>
    simp [V2.log_action, dictGet_insert_self, dictInsert_insert_self]

theorem review_survey_not_coe (m : V2.Manager) (sid role dec : String) (s : V2.Survey)
    (h : dictGet m.surveys sid = some s) (hr : role ≠ V2.ROLE_COE) :
    V2.review_survey m sid role dec =
      (false, m, ["Error reviewing survey: Unauthorized role for review."]) := by
  simp [V2.review_survey, h, hr]

theorem review_survey_missing (m : V2.Manager) (sid role dec : String)
    (h : dictGet m.surveys sid = none) :
    V2.review_survey m sid role dec =
      (false, m, ["Error reviewing survey: Survey not found."]) := by
  simp [V2.review_survey, h]

theorem publish_survey_approved (m : V2.Manager) (sid : String) (s : V2.Survey)
    (h : dictGet m.surveys sid = some s) (hst : s.status = V2.STATUS_APPROVED) :
    V2.publish_survey m sid =
      (true,
       ⟨dictInsert m.surveys sid
         { s with status := V2.STATUS_PUBLISHED,
                  audit_trail := s.audit_trail ++ [⟨V2.ROLE_COE, "Survey Published"⟩] }⟩,
       ["Sending Email: Survey " ++ s.survey_id ++ " has been published."]) := by
  simp [V2.publish_survey, h, hst, V2.log_action, dictGet_insert_self,
    dictInsert_insert_self]

theorem publish_survey_not_approved (m : V2.Manager) (sid : String) (s : V2.Survey)
    (h : dictGet m.surveys sid = some s) (hst : s.status ≠ V2.STATUS_APPROVED) :
    V2.publish_survey m sid =
      (false, m, ["Error publishing survey: Survey is not approved for publish."]) := by
  simp [V2.publish_survey, h, hst]

theorem publish_survey_missing (m : V2.Manager) (sid : String)
    (h : dictGet m.surveys sid = none) :
    V2.publish_survey m sid =
      (false, m, ["Error publishing survey: Survey not found."]) := by
  simp [V2.publish_survey, h]

theorem submit_response_owner (m : V2.Manager) (sid cid : String)
    (rs : List (String × String)) (fin : Bool) (s : V2.Survey)
    (h : dictGet m.surveys sid = some s) (hc : s.customer_id = cid) :
    V2.submit_response m sid cid rs fin =
      (true,
       ⟨dictInsert m.surveys sid
         { s with responses := dictInsert s.responses cid rs,
                  status := if fin then V2.STATUS_COMPLETED else V2.STATUS_IN_PROGRESS,
                  audit_trail := s.audit_trail ++
                    [⟨V2.ROLE_CUSTOMER,
                      if fin then "Final Response Submitted" else "Response Saved"⟩] }⟩,
       []) := by
  simp [V2.submit_response, h, hc, V2.log_action, dictGet_insert_self,
    dictInsert_insert_self]

theorem submit_response_not_owner (m : V2.Manager) (sid cid : String)
    (rs : List (String × String)) (fin : Bool) (s : V2.Survey)
    (h : dictGet m.surveys sid = some s) (hc : s.customer_id ≠ cid) :
    V2.submit_response m sid cid rs fin =
      (false, m, ["Error submitting response: Unauthorized customer."]) := by
  simp [V2.submit_response, h, hc]

theorem submit_response_missing (m : V2.Manager) (sid cid : String)
    (rs : List (String × String)) (fin : Bool)
    (h : dictGet m.surveys sid = none) :
    V2.submit_response m sid cid rs fin =
      (false, m, ["Error submitting response: Survey not found."]) := by
  simp [V2.submit_response, h]

theorem export_survey_data_found (m : V2.Manager) (sid : String) (s : V2.Survey)
    (h : dictGet m.surveys sid = some s) :
    V2.export_survey_data m sid =
      (some ⟨s.survey_id, s.title, s.status, s.responses, s.audit_trail⟩, m, []) := by
  simp [V2.export_survey_data, h]

/-- C1 counterexample: submit_for_review invoked on a Published survey, a
transition absent from the table, does not fail and changes the status to
Under Review, so the claim as stated is false. -/
theorem C1_counterexample :
    exPublished.status = V1.SURVEY_STATUS_PUBLISHED ∧
    (V1.submit_for_review exPublished).status = V1.SURVEY_STATUS_REVIEW ∧
    V1.SURVEY_STATUS_REVIEW ≠ V1.SURVEY_STATUS_PUBLISHED := by decide

/-- C1 amended: publish does fail and leave the survey unchanged from any
status other than Approved, in both variants; but submitForReview and
submitFinal perform no status check at all and move any survey to Under
Review resp. Completed. -/
theorem C1_amended :
    (∀ s : V1.Survey, s.status ≠ V1.SURVEY_STATUS_APPROVED →
      V1.publish_survey s =
        (s, some "Error publishing survey: Survey must be approved before publishing.")) ∧
    (∀ s : V1.Survey, (V1.submit_for_review s).status = V1.SURVEY_STATUS_REVIEW) ∧
    (∀ s : V1.Survey, (V1.submit_survey s).status = V1.SURVEY_STATUS_COMPLETED) ∧
    (∀ (m : V2.Manager) (sid : String) (s : V2.Survey),
      dictGet m.surveys sid = some s → s.status ≠ V2.STATUS_APPROVED →
      V2.publish_survey m sid =
        (false, m, ["Error publishing survey: Survey is not approved for publish."])) := by
  refine ⟨?_, ?_, ?_, ?_⟩
  · intro s h
    simp [V1.publish_survey, h]
  · intro s
    simp [V1.submit_for_review, V1.Survey.add_audit_log]
  · intro s
    simp [V1.submit_survey, V1.Survey.add_audit_log]
  · intro m sid s h hst
    exact publish_survey_not_approved m sid s h hst

/-- C1 witness: the amended theorem applied to the Draft fixture and to the
published V2 fixture. -/
theorem C1_witness :
    V1.publish_survey exDraft =
      (exDraft, some "Error publishing survey: Survey must be approved before publishing.") ∧
    V2.publish_survey mPub "s1" =
      (false, mPub, ["Error publishing survey: Survey is not approved for publish."]) :=
  ⟨C1_amended.1 exDraft (by decide),
   C1_amended.2.2.2 mPub "s1" exSurvey2 (by decide) (by decide)⟩

/-- C2 counterexample: a successful publish of an approved V1 survey appends
two audit records (publish entry plus notification entry), not one. -/
theorem C2_counterexample :
    (V1.publish_survey exApproved).2 = none ∧
    exApproved.audit_trail.length = 1 ∧
    (V1.publish_survey exApproved).1.audit_trail.length = 3 := by decide

/-- C2 amended: every successful mutating call appends exactly one audit
record and every failed call appends none, with one exception: a successful
V1 publish_survey appends two records, the publish entry and the
customer-notification entry. -/
theorem C2_amended :
    (∀ (sid title : String) (qs : List String) (cid : String) (sd ed : Int),
      (V1.create_survey sid title qs cid sd ed).audit_trail.length = 1) ∧
    (∀ s : V1.Survey,
      (V1.submit_for_review s).audit_trail.length = s.audit_trail.length + 1) ∧
    (∀ (s : V1.Survey) (d : String),
      ((V1.review_survey s d).2 = none →
        (V1.review_survey s d).1.audit_trail.length = s.audit_trail.length + 1) ∧
      ((V1.review_survey s d).2.isSome → (V1.review_survey s d).1 = s)) ∧
    (∀ s : V1.Survey,
      ((V1.publish_survey s).2 = none →
        (V1.publish_survey s).1.audit_trail.length = s.audit_trail.length + 2) ∧
      ((V1.publish_survey s).2.isSome → (V1.publish_survey s).1 = s)) ∧
    (∀ (s : V1.Survey) (rs : List (String × String)),
      ((V1.fill_survey s rs).2 = none →
        (V1.fill_survey s rs).1.audit_trail.length = s.audit_trail.length + 1) ∧
      ((V1.fill_survey s rs).2.isSome →
        (V1.fill_survey s rs).1.audit_trail = s.audit_trail)) ∧
    (∀ s : V1.Survey,
      (V1.submit_survey s).audit_trail.length = s.audit_trail.length + 1) ∧
    (∀ (m : V2.Manager) (sid title : String) (qs : List String) (sd ed : Int)
        (cid : String),
      ∃ s2, dictGet (V2.create_survey m sid title qs sd ed cid).2.1.surveys sid = some s2 ∧
        s2.audit_trail.length = 1) ∧
    (∀ (m : V2.Manager) (sid role dec : String),
      ((V2.review_survey m sid role dec).1 = false →
        (V2.review_survey m sid role dec).2.1 = m) ∧
      (∀ s : V2.Survey, dictGet m.surveys sid = some s →
        (V2.review_survey m sid role dec).1 = true →
        ∃ s2, dictGet (V2.review_survey m sid role dec).2.1.surveys sid = some s2 ∧
          s2.audit_trail.length = s.audit_trail.length + 1)) ∧
    (∀ (m : V2.Manager) (sid : String),
      ((V2.publish_survey m sid).1 = false → (V2.publish_survey m sid).2.1 = m) ∧
      (∀ s : V2.Survey, dictGet m.surveys sid = some s →
        (V2.publish_survey m sid).1 = true →
        ∃ s2, dictGet (V2.publish_survey m sid).2.1.surveys sid = some s2 ∧
          s2.audit_trail.length = s.audit_trail.length + 1)) ∧
    (∀ (m : V2.Manager) (sid cid : String) (rs : List (String × String)) (fin : Bool),
      ((V2.submit_response m sid cid rs fin).1 = false →
        (V2.submit_response m sid cid rs fin).2.1 = m) ∧
      (∀ s : V2.Survey, dictGet m.surveys sid = some s →
        (V2.submit_response m sid cid rs fin).1 = true →
        ∃ s2, dictGet (V2.submit_response m sid cid rs fin).2.1.surveys sid = some s2 ∧
          s2.audit_trail.length = s.audit_trail.length + 1)) := by
  refine ⟨?_, ?_, ?_, ?_, ?_, ?_, ?_, ?_, ?_, ?_⟩
  · intro sid title qs cid sd ed
    simp [V1.create_survey, V1.mkSurvey, V1.Survey.add_audit_log]
  · intro s
    simp [V1.submit_for_review, V1.Survey.add_audit_log]
  · intro s d
    by_cases h1 : d = V1.SURVEY_STATUS_APPROVED <;>
      by_cases h2 : d = V1.SURVEY_STATUS_REJECTED <;>
      simp only [V1.SURVEY_STATUS_APPROVED, V1.SURVEY_STATUS_REJECTED] at h1 h2 <;>
      simp [V1.review_survey, h1, h2, V1.Survey.add_audit_log,
        V1.SURVEY_STATUS_APPROVED, V1.SURVEY_STATUS_REJECTED]
  · intro s
    by_cases h : s.status = V1.SURVEY_STATUS_APPROVED <;>
      simp [V1.publish_survey, h, V1.notify_customer, V1.Survey.add_audit_log]
  · intro s rs
    constructor
    · intro h
      rw [fill_survey_audit_ok s rs h]
      simp
    · intro h
      exact fill_survey_audit_err s rs h
  · intro s
    simp [V1.submit_survey, V1.Survey.add_audit_log]
  · intro m sid title qs sd ed cid
    rw [create_survey_eq]
    exact ⟨_, dictGet_insert_self _ _ _, by simp⟩
  · intro m sid role dec
    constructor
    · rcases hm : dictGet m.surveys sid with _ | s
      · rw [review_survey_missing m sid role dec hm]
        intro
        rfl
      · by_cases hr : role = V2.ROLE_COE
        · subst hr
          rw [review_survey_found_coe m sid dec s hm]
          split_ifs <;> intro hfalse <;> first | rfl | simp at hfalse
        · rw [review_survey_not_coe m sid role dec s hm hr]
          intro
          rfl
    · intro s hs htrue
      by_cases hr : role = V2.ROLE_COE
      · subst hr
        rw [review_survey_found_coe m sid dec s hs] at htrue ⊢
        split_ifs at htrue ⊢ with h1 h2 h3 <;>
          exact ⟨_, dictGet_insert_self _ _ _, by simp⟩
      · rw [review_survey_not_coe m sid role dec s hs hr] at htrue
        simp at htrue
  · intro m sid
    constructor
    · rcases hm : dictGet m.surveys sid with _ | s
      · rw [publish_survey_missing m sid hm]
        intro
        rfl
      · by_cases hst : s.status = V2.STATUS_APPROVED
        · rw [publish_survey_approved m sid s hm hst]
          intro hfalse
          simp at hfalse
        · rw [publish_survey_not_approved m sid s hm hst]
          intro
          rfl
    · intro s hs htrue
      by_cases hst : s.status = V2.STATUS_APPROVED
      · rw [publish_survey_approved m sid s hs hst]
        exact ⟨_, dictGet_insert_self _ _ _, by simp⟩
      · rw [publish_survey_not_approved m sid s hs hst] at htrue
        simp at htrue
  · intro m sid cid rs fin
    constructor
    · rcases hm : dictGet m.surveys sid with _ | s
      · rw [submit_response_missing m sid cid rs fin hm]
        intro
        rfl
      · by_cases hc : s.customer_id = cid
        · rw [submit_response_owner m sid cid rs fin s hm hc]
          intro hfalse
          simp at hfalse
        · rw [submit_response_not_owner m sid cid rs fin s hm hc]
          intro
          rfl
    · intro s hs htrue
      by_cases hc : s.customer_id = cid
      · rw [submit_response_owner m sid cid rs fin s hs hc]
        exact ⟨_, dictGet_insert_self _ _ _, by simp⟩
      · rw [submit_response_not_owner m sid cid rs fin s hs hc] at htrue
        simp at htrue

/-- C2 witness: the amended theorem applied to concrete calls discharging the
conditional parts: a failed V2 review on an empty store, and a successful V2
response submission on the published fixture. -/
theorem C2_witness :
    (V2.review_survey m0 "s1" V2.ROLE_COE "approve").2.1 = m0 ∧
    (∃ s2, dictGet (V2.submit_response mPub "s1" "C1" [("Q1", "yes")] false).2.1.surveys
        "s1" = some s2 ∧
      s2.audit_trail.length = exSurvey2.audit_trail.length + 1) :=
  ⟨((C2_amended.2.2.2.2.2.2.2.1 m0 "s1" V2.ROLE_COE "approve").1 (by decide)),
   ((C2_amended.2.2.2.2.2.2.2.2.2 mPub "s1" "C1" [("Q1", "yes")] false).2 exSurvey2
      (by decide) (by decide))⟩

/-- C3 counterexample: filling with the answers dict whose first key Q1 is a
real question and whose second key QX is unknown raises the error, yet the
Q1 answer has already been written: responses changed from empty to holding
Q1, so the no-partial-write part of the claim is false. -/
theorem C3_counterexample :
    (V1.fill_survey exPublished [("Q1", "a"), ("QX", "b")]).2.isSome ∧
    exPublished.responses = [] ∧
    (V1.fill_survey exPublished [("Q1", "a"), ("QX", "b")]).1.responses =
      [("Q1", "a")] := by decide

/-- C3 amended: V1 fill_survey raises an error exactly when some submitted key
is not a question, but the answers preceding the first unknown key are
already merged into responses when it raises (partial writes do happen); the
final responses are always the merge of the longest valid prefix of the
submission. V2 submit_response never validates answer keys: with the owning
customer it succeeds for any answers dict. -/
theorem C3_amended :
    (∀ (s : V1.Survey) (rs : List (String × String)),
      (V1.fill_survey s rs).2.isSome ↔ ∃ p ∈ rs, p.1 ∉ s.questions) ∧
    (∀ (s : V1.Survey) (rs : List (String × String)),
      (V1.fill_survey s rs).1.responses =
        mergeList s.responses (takeValid s.questions rs)) ∧
    (∀ (m : V2.Manager) (sid cid : String) (s : V2.Survey)
        (rs : List (String × String)) (fin : Bool),
      dictGet m.surveys sid = some s → s.customer_id = cid →
      (V2.submit_response m sid cid rs fin).1 = true) := by
  refine ⟨fill_survey_err_iff, fill_survey_responses, ?_⟩
  intro m sid cid s rs fin h hc
  rw [submit_response_owner m sid cid rs fin s h hc]

/-- C3 witness: the amended theorem applied to the published V2 fixture with
an answers dict whose key is not among the questions; the call still
succeeds. -/
theorem C3_witness :
    (V2.submit_response mPub "s1" "C1" [("QX", "b")] false).1 = true :=
  C3_amended.2.2 mPub "s1" "C1" exSurvey2 [("QX", "b")] false (by decide) (by decide)

/-- C4 counterexample: a survey freshly created through the V2 manager has
status Pending Review, not Draft. -/
theorem C4_counterexample :
    (dictGet (V2.create_survey m0 "s1" "T" ["Q1"] 0 7 "C1").2.1.surveys "s1").map
      V2.Survey.status = some V2.STATUS_PENDING_REVIEW ∧
    V2.STATUS_PENDING_REVIEW ≠ "Draft" := by decide

/-- C4 amended: for all creation inputs, a V1 survey starts in Draft with
empty responses and an audit trail of length one, while a V2 survey starts in
Pending Review with empty responses and an audit trail of length one. -/
theorem C4_amended :
    (∀ (sid title : String) (qs : List String) (cid : String) (sd ed : Int),
      (V1.create_survey sid title qs cid sd ed).status = V1.SURVEY_STATUS_DRAFT ∧
      (V1.create_survey sid title qs cid sd ed).responses = [] ∧
      (V1.create_survey sid title qs cid sd ed).audit_trail.length = 1) ∧
    (∀ (m : V2.Manager) (sid title : String) (qs : List String) (sd ed : Int)
        (cid : String),
      ∃ s, dictGet (V2.create_survey m sid title qs sd ed cid).2.1.surveys sid = some s ∧
        s.status = V2.STATUS_PENDING_REVIEW ∧ s.responses = [] ∧
        s.audit_trail.length = 1) := by
  constructor
  · intro sid title qs cid sd ed
    refine ⟨?_, ?_, ?_⟩ <;>
      simp [V1.create_survey, V1.mkSurvey, V1.Survey.add_audit_log]
  · intro m sid title qs sd ed cid
    rw [create_survey_eq]
    exact ⟨_, dictGet_insert_self _ _ _, rfl, rfl, rfl⟩

/-- C5 counterexample: creation with an empty questions list and an end date
earlier than the start date succeeds in both variants: the V2 manager returns
the new id rather than failing, and V1 returns a Draft survey. -/
theorem C5_counterexample :
    (V2.create_survey m0 "s1" "T" [] 7 0 "C1").1 = some "s1" ∧
    (V1.create_survey "id" "T" [] "C1" 7 0).status = V1.SURVEY_STATUS_DRAFT ∧
    (V1.create_survey "id" "T" [] "C1" 7 0).questions = [] := by decide

/-- C5 amended: create performs no validation at all: for every questions
list, empty included, and every date pair, endDate earlier than startDate
included, it succeeds, V2 returning the fresh id and V1 returning a survey
built from exactly the given inputs. -/
theorem C5_amended :
    (∀ (m : V2.Manager) (sid title : String) (qs : List String) (sd ed : Int)
        (cid : String),
      (V2.create_survey m sid title qs sd ed cid).1 = some sid) ∧
    (∀ (sid title : String) (qs : List String) (cid : String) (sd ed : Int),
      (V1.create_survey sid title qs cid sd ed).questions = qs ∧
      (V1.create_survey sid title qs cid sd ed).start_date = sd ∧
      (V1.create_survey sid title qs cid sd ed).end_date = ed ∧
      (V1.create_survey sid title qs cid sd ed).audit_trail.length = 1) := by
  constructor
  · intro m sid title qs sd ed cid
    rw [create_survey_eq]
  · intro sid title qs cid sd ed
    refine ⟨?_, ?_, ?_, ?_⟩ <;>
      simp [V1.create_survey, V1.mkSurvey, V1.Survey.add_audit_log]

/-- C6: submit_response invoked with a customer id different from the owning
customer id fails (returns false, with the PermissionError message printed)
and leaves the manager state, hence the survey responses and status,
unchanged. In V1 the filling operation takes no actor identity at all, so the
claim concerns the V2 operation. -/
theorem C6_theorem :
    ∀ (m : V2.Manager) (sid cid : String) (s : V2.Survey)
      (rs : List (String × String)) (fin : Bool),
      dictGet m.surveys sid = some s → cid ≠ s.customer_id →
      V2.submit_response m sid cid rs fin =
        (false, m, ["Error submitting response: Unauthorized customer."]) := by
  intro m sid cid s rs fin h hc
  exact submit_response_not_owner m sid cid rs fin s h hc.symm

/-- C6 witness: the theorem applied to the published fixture owned by C1 with
acting customer C2, both for a save and for a final submission. -/
theorem C6_witness :
    V2.submit_response mPub "s1" "C2" [("Q1", "yes")] true =
      (false, mPub, ["Error submitting response: Unauthorized customer."]) ∧
    V2.submit_response mPub "s1" "C2" [("Q1", "yes")] false =
      (false, mPub, ["Error submitting response: Unauthorized customer."]) :=
  ⟨C6_theorem mPub "s1" "C2" exSurvey2 [("Q1", "yes")] true (by decide) (by decide),
   C6_theorem mPub "s1" "C2" exSurvey2 [("Q1", "yes")] false (by decide) (by decide)⟩

/-- C7 counterexample: a successful V1 fill leaves the status at Published
instead of setting In Progress; and in V2 a second submission with a
different question key replaces the whole stored dict, losing the earlier
Q1 answer instead of merging per question. -/
theorem C7_counterexample :
    (V1.fill_survey exPublished [("Q1", "yes")]).2 = none ∧
    (V1.fill_survey exPublished [("Q1", "yes")]).1.status = V1.SURVEY_STATUS_PUBLISHED ∧
    V1.SURVEY_STATUS_PUBLISHED ≠ "In Progress" ∧
    (dictGet (V2.submit_response
        (V2.submit_response mPub "s1" "C1" [("Q1", "yes")] false).2.1
        "s1" "C1" [("Q2", "no")] false).2.1.surveys "s1").map V2.Survey.responses =
      some [("C1", [("Q2", "no")])] := by decide

/-- C7 amended: V1 fill_survey merges valid answers into responses per
question, later calls overwriting earlier answers for the same question with
no duplicate key, but it never changes the status; V2 submit_response stores
the submitted dict wholesale under the customer id, replacing any previous
submission of that customer, and sets the status to In Progress, or Completed
when final. -/
theorem C7_amended :
    (∀ (s : V1.Survey) (q a : String), q ∈ s.questions →
      V1.fill_survey s [(q, a)] =
        ({ s with responses := dictInsert s.responses q a,
                  audit_trail := s.audit_trail ++
                    ["Customer filled in survey responses."] }, none)) ∧
    (∀ (s : V1.Survey) (rs : List (String × String)),
      (V1.fill_survey s rs).1.status = s.status) ∧
    (∀ (s : V1.Survey) (q a1 a2 : String), q ∈ s.questions →
      (V1.fill_survey (V1.fill_survey s [(q, a1)]).1 [(q, a2)]).1.responses =
        dictInsert s.responses q a2) ∧
    (∀ (m : V2.Manager) (sid cid : String) (s : V2.Survey)
        (rs : List (String × String)) (fin : Bool),
      dictGet m.surveys sid = some s → s.customer_id = cid →
      ∃ s2, dictGet (V2.submit_response m sid cid rs fin).2.1.surveys sid = some s2 ∧
        s2.responses = dictInsert s.responses cid rs ∧
        s2.status = (if fin then V2.STATUS_COMPLETED else V2.STATUS_IN_PROGRESS)) := by
  refine ⟨?_, fill_survey_status, ?_, ?_⟩
  · intro s q a hq
    simp [V1.fill_survey, V1.fillLoop, hq, V1.Survey.add_audit_log]
  · intro s q a1 a2 hq
    simp [V1.fill_survey, V1.fillLoop, hq, V1.Survey.add_audit_log,
      dictInsert_insert_self]
  · intro m sid cid s rs fin h hc
    rw [submit_response_owner m sid cid rs fin s h hc]
    exact ⟨_, dictGet_insert_self _ _ _, rfl, rfl⟩

/-- C7 witness: the amended theorem at concrete inputs: a one-question fill
of the published V1 fixture, the overwrite of Q1 by a second fill, and a
non-final V2 submission by the owner. -/
theorem C7_witness :
    V1.fill_survey exPublished [("Q1", "yes")] =
      ({ exPublished with
          responses := dictInsert exPublished.responses "Q1" "yes",
          audit_trail := exPublished.audit_trail ++
            ["Customer filled in survey responses."] }, none) ∧
    (V1.fill_survey (V1.fill_survey exPublished [("Q1", "a")]).1
      [("Q1", "b")]).1.responses = dictInsert exPublished.responses "Q1" "b" ∧
    ∃ s2, dictGet (V2.submit_response mPub "s1" "C1" [("Q1", "yes")] false).2.1.surveys
        "s1" = some s2 ∧
      s2.responses = dictInsert exSurvey2.responses "C1" [("Q1", "yes")] ∧
      s2.status = (if false then V2.STATUS_COMPLETED else V2.STATUS_IN_PROGRESS) :=
  ⟨C7_amended.1 exPublished "Q1" "yes" (by decide),
   C7_amended.2.2.1 exPublished "Q1" "a" "b" (by decide),
   C7_amended.2.2.2 mPub "s1" "C1" exSurvey2 [("Q1", "yes")] false
     (by decide) (by decide)⟩

/-- C8 counterexample: two failures of different kinds (survey not found, and
unauthorized reviewer role) both come back to the caller as the bare value
false with the state unchanged: the returned values are identical, so the
caller receives no structured error kind or message; the message is only
printed. -/
theorem C8_counterexample :
    (V2.review_survey m0 "s1" V2.ROLE_COE "approve").1 = false ∧
    (V2.review_survey m0 "s1" V2.ROLE_COE "approve").2.1 = m0 ∧
    (V2.review_survey mPub "s1" V2.ROLE_CUSTOMER "approve").1 = false ∧
    (V2.review_survey mPub "s1" V2.ROLE_CUSTOMER "approve").2.1 = mPub ∧
    (V2.review_survey m0 "s1" V2.ROLE_COE "approve").1 =
      (V2.review_survey mPub "s1" V2.ROLE_CUSTOMER "approve").1 := by decide

/-- C8 amended: no failure is silent, but the structure of the report differs
from the claim: every failing V2 call returns the bare failure value (false
or none) with the manager unchanged and prints at least one error line,
rather than returning a kind-plus-message value to the caller; every failing
V1 call propagates its error message, review and publish failures leaving the
survey unchanged, while a failing fill_survey leaves the status and the audit
trail unchanged but may retain the partially merged responses written before
the error fired. -/
theorem C8_amended :
    (∀ (m : V2.Manager) (sid role dec : String),
      (V2.review_survey m sid role dec).1 = false →
        (V2.review_survey m sid role dec).2.1 = m ∧
        (V2.review_survey m sid role dec).2.2 ≠ []) ∧
    (∀ (m : V2.Manager) (sid : String),
      (V2.publish_survey m sid).1 = false →
        (V2.publish_survey m sid).2.1 = m ∧ (V2.publish_survey m sid).2.2 ≠ []) ∧
    (∀ (m : V2.Manager) (sid cid : String) (rs : List (String × String)) (fin : Bool),
      (V2.submit_response m sid cid rs fin).1 = false →
        (V2.submit_response m sid cid rs fin).2.1 = m ∧
        (V2.submit_response m sid cid rs fin).2.2 ≠ []) ∧
    (∀ (m : V2.Manager) (sid : String),
      (V2.export_survey_data m sid).1 = none →
        (V2.export_survey_data m sid).2.1 = m ∧
        (V2.export_survey_data m sid).2.2 ≠ []) ∧
    (∀ (s : V1.Survey) (d : String),
      (V1.review_survey s d).2.isSome → (V1.review_survey s d).1 = s) ∧
    (∀ s : V1.Survey, (V1.publish_survey s).2.isSome → (V1.publish_survey s).1 = s) ∧
    (∀ (s : V1.Survey) (rs : List (String × String)),
      (V1.fill_survey s rs).2.isSome →
        (V1.fill_survey s rs).1.status = s.status ∧
        (V1.fill_survey s rs).1.audit_trail = s.audit_trail ∧
        (V1.fill_survey s rs).1.responses =
          mergeList s.responses (takeValid s.questions rs)) := by
  refine ⟨?_, ?_, ?_, ?_, ?_, ?_, ?_⟩
  · intro m sid role dec
    rcases hm : dictGet m.surveys sid with _ | s
    · rw [review_survey_missing m sid role dec hm]
      intro
      exact ⟨rfl, by simp⟩
    · by_cases hr : role = V2.ROLE_COE
      · subst hr
        rw [review_survey_found_coe m sid dec s hm]
        split_ifs <;> intro hfalse <;> first | exact ⟨rfl, by simp⟩ | simp at hfalse
      · rw [review_survey_not_coe m sid role dec s hm hr]
        intro
        exact ⟨rfl, by simp⟩
  · intro m sid
    rcases hm : dictGet m.surveys sid with _ | s
    · rw [publish_survey_missing m sid hm]
      intro
      exact ⟨rfl, by simp⟩
    · by_cases hst : s.status = V2.STATUS_APPROVED
      · rw [publish_survey_approved m sid s hm hst]
        intro hfalse
        simp at hfalse
      · rw [publish_survey_not_approved m sid s hm hst]
        intro
        exact ⟨rfl, by simp⟩
  · intro m sid cid rs fin
    rcases hm : dictGet m.surveys sid with _ | s
    · rw [submit_response_missing m sid cid rs fin hm]
      intro
      exact ⟨rfl, by simp⟩
    · by_cases hc : s.customer_id = cid
      · rw [submit_response_owner m sid cid rs fin s hm hc]
        intro hfalse
        simp at hfalse
      · rw [submit_response_not_owner m sid cid rs fin s hm hc]
        intro
        exact ⟨rfl, by simp⟩
  · intro m sid
    rcases hm : dictGet m.surveys sid with _ | s
    · simp [V2.export_survey_data, hm]
    · rw [export_survey_data_found m sid s hm]
      intro hnone
      simp at hnone
  · intro s d
    by_cases h1 : d = V1.SURVEY_STATUS_APPROVED <;>
      by_cases h2 : d = V1.SURVEY_STATUS_REJECTED <;>
      simp only [V1.SURVEY_STATUS_APPROVED, V1.SURVEY_STATUS_REJECTED] at h1 h2 <;>
      simp [V1.review_survey, h1, h2, V1.Survey.add_audit_log,
        V1.SURVEY_STATUS_APPROVED, V1.SURVEY_STATUS_REJECTED]
  · intro s
    by_cases h : s.status = V1.SURVEY_STATUS_APPROVED <;>
      simp [V1.publish_survey, h, V1.notify_customer, V1.Survey.add_audit_log]
  · intro s rs herr
    exact ⟨fill_survey_status s rs, fill_survey_audit_err s rs herr,
      fill_survey_responses s rs⟩

/-- C8 witness: the amended theorem at concrete failures: a review of a
missing survey, a publish of a non-approved survey, an invalid V1 review
decision, and a V1 fill that fails on an unknown question key after a
partial write. -/
theorem C8_witness :
    ((V2.review_survey m0 "s1" V2.ROLE_COE "approve").2.1 = m0 ∧
      (V2.review_survey m0 "s1" V2.ROLE_COE "approve").2.2 ≠ []) ∧
    ((V2.publish_survey mPub "s1").2.1 = mPub ∧
      (V2.publish_survey mPub "s1").2.2 ≠ []) ∧
    (V1.review_survey exDraft "maybe").1 = exDraft ∧
    ((V1.fill_survey exPublished [("Q1", "a"), ("QX", "b")]).1.status =
        exPublished.status ∧
      (V1.fill_survey exPublished [("Q1", "a"), ("QX", "b")]).1.audit_trail =
        exPublished.audit_trail ∧
      (V1.fill_survey exPublished [("Q1", "a"), ("QX", "b")]).1.responses =
        mergeList exPublished.responses
          (takeValid exPublished.questions [("Q1", "a"), ("QX", "b")])) :=
  ⟨C8_amended.1 m0 "s1" V2.ROLE_COE "approve" (by decide),
   C8_amended.2.1 mPub "s1" (by decide),
   C8_amended.2.2.2.2.1 exDraft "maybe" (by decide),
   C8_amended.2.2.2.2.2.2 exPublished [("Q1", "a"), ("QX", "b")] (by decide)⟩

/-- C9: export_survey_data on any stored survey returns exactly the survey id,
title, status, responses and audit trail, leaves the manager state unchanged
and prints nothing. -/
theorem C9_export :
    ∀ (m : V2.Manager) (sid : String) (s : V2.Survey),
      dictGet m.surveys sid = some s →
      V2.export_survey_data m sid =
        (some ⟨s.survey_id, s.title, s.status, s.responses, s.audit_trail⟩, m, []) := by
  intro m sid s h
  exact export_survey_data_found m sid s h

/-- C9 witness: the theorem applied to the published fixture. -/
theorem C9_witness :
    V2.export_survey_data mPub "s1" =
      (some ⟨exSurvey2.survey_id, exSurvey2.title, exSurvey2.status,
        exSurvey2.responses, exSurvey2.audit_trail⟩, mPub, []) :=
  C9_export mPub "s1" exSurvey2 (by decide)

/-- C10: a request_changes decision issued by the Center of Excellence role on
any stored survey succeeds, leaves the status equal to Pending Review and
appends exactly one audit record. -/
theorem C10_request_changes :
    ∀ (m : V2.Manager) (sid : String) (s : V2.Survey),
      dictGet m.surveys sid = some s →
      (V2.review_survey m sid V2.ROLE_COE "request_changes").1 = true ∧
      ∃ s2, dictGet (V2.review_survey m sid V2.ROLE_COE "request_changes").2.1.surveys
          sid = some s2 ∧
        s2.status = V2.STATUS_PENDING_REVIEW ∧
        s2.audit_trail = s.audit_trail ++
          [⟨V2.ROLE_COE, "Review decision: request_changes"⟩] := by
  intro m sid s h
  rw [review_survey_found_coe m sid "request_changes" s h]
  rw [if_neg (by decide), if_neg (by decide), if_pos (by decide)]
  exact ⟨rfl, _, dictGet_insert_self _ _ _, rfl, rfl⟩

/-- C10 witness: the theorem applied to the published fixture. -/
theorem C10_witness :
    (V2.review_survey mPub "s1" V2.ROLE_COE "request_changes").1 = true ∧
    ∃ s2, dictGet (V2.review_survey mPub "s1" V2.ROLE_COE "request_changes").2.1.surveys
        "s1" = some s2 ∧
      s2.status = V2.STATUS_PENDING_REVIEW ∧
      s2.audit_trail = exSurvey2.audit_trail ++
        [⟨V2.ROLE_COE, "Review decision: request_changes"⟩] :=
  C10_request_changes mPub "s1" exSurvey2 (by decide)
